import Mathlib

/-!
Verification of the mood-to-music recommendation pipeline.

The Python sources are shallowly embedded: dictionaries become association
lists (`List (String × α)`) with Python's assignment/lookup semantics, floats
become `ℚ`, BPM integers become `ℤ`, and code that can raise returns
`Option`/`Except`.  Each section names the source file and function it embeds.
-/

/-! ## Association-list dictionaries (Python `dict` semantics) -/

/-- Python `d[key]` lookup: first (and only) binding for `key`, if any. -/
def dictLookup {α : Type} : List (String × α) → String → Option α
  | [], _ => none
  | (k, v) :: rest, key => if k = key then some v else dictLookup rest key

/-- Python `d[key] = val`: replace the existing binding in place, else append. -/
def dictSet {α : Type} : List (String × α) → String → α → List (String × α)
  | [], key, val => [(key, val)]
  | (k, v) :: rest, key, val =>
    if k = key then (key, val) :: rest else (k, v) :: dictSet rest key val

/-- Python `d.get(key, dflt)`. -/
def dictGetD {α : Type} (d : List (String × α)) (key : String) (dflt : α) : α :=
  (dictLookup d key).getD dflt

/-- Python `key in d`. -/
def dictHasKey {α : Type} (d : List (String × α)) (key : String) : Bool :=
  (dictLookup d key).isSome

/-! ## Emotion fusion — `src/backend/emotion_api.py`

`EmotionDetector._adjust_emotion_with_heart_rate` (lines 164–200),
`EmotionDetector._get_emotion_from_heart_rate` (lines 202–232) and the
error branch of `EmotionDetector.combine_sensor_data` (lines 134–138).
-/

/-- `EmotionDetector._adjust_emotion_with_heart_rate`: thresholds
`RESTING_HR = 70`, `HIGH_HR = 110`, confidence cut at `0.7` (strict `>`). -/
def adjustEmotionWithHeartRate (emotion : String) (confidence : ℚ) (heartRate : ℤ) : String :=
  if confidence > 7/10 then emotion
  else if heartRate > 110 then
    if emotion ∈ ["neutral", "sadness", "contempt"] then
      if heartRate > 120 then "excitement" else "stress"
    else emotion
  else if heartRate < 70 then
    if emotion ∈ ["anger", "fear", "surprise"] then "neutral" else emotion
  else emotion

/-- The result record of `_get_emotion_from_heart_rate`: primary emotion,
`face_emotion` (always `"unknown"` there), heart rate and the music
parameters attached to the chosen band. -/
structure HrAssessment where
  primaryEmotion : String
  faceEmotion : String
  heartRate : ℤ
  musicValence : ℚ
  musicEnergy : ℚ
  musicTempo : String
deriving DecidableEq

/-- `EmotionDetector._get_emotion_from_heart_rate`: the heart-rate-only
fallback bands, all with strict `>` comparisons. -/
def getEmotionFromHeartRate (heartRate : ℤ) : HrAssessment :=
  if heartRate > 110 then ⟨"excitement", "unknown", heartRate, 8/10, 8/10, "high"⟩
  else if heartRate > 90 then ⟨"stress", "unknown", heartRate, 4/10, 7/10, "medium-high"⟩
  else if heartRate > 70 then ⟨"neutral", "unknown", heartRate, 5/10, 5/10, "medium"⟩
  else ⟨"relaxed", "unknown", heartRate, 6/10, 3/10, "low"⟩

/-- Classifier output consumed by `combine_sensor_data`: either an error
(`'error' in face_emotion`) or a primary emotion with its confidence. -/
structure FaceResult where
  primaryEmotion : String
  confidence : ℚ
deriving DecidableEq

/-- The `primary_emotion` field of `EmotionDetector.combine_sensor_data`'s
result: on a classifier error it comes from `_get_emotion_from_heart_rate`,
otherwise from `_adjust_emotion_with_heart_rate`. -/
def combineSensorDataPrimary (faceEmotion : Except String FaceResult) (heartRate : ℤ) : String :=
  match faceEmotion with
  | .error _ => (getEmotionFromHeartRate heartRate).primaryEmotion
  | .ok f => adjustEmotionWithHeartRate f.primaryEmotion f.confidence heartRate

/-! ## Music-parameter dictionaries and goal adaptation

`MOOD_AUDIO_FEATURES` — `src/backend/playlist_logic.py` lines 10–57;
`EmotionDetector.adapt_to_user_goal` — `src/backend/emotion_api.py`
lines 272–314.  Parameter dictionaries mix numbers and strings (the
`tempo` entry of `EMOTION_MAP` holds strings such as `"medium"`), so
values are embedded as a sum of `ℚ` and `String`.
-/

/-- A Python value stored in a music-parameter dictionary. -/
inductive PVal where
  | num (q : ℚ)
  | str (s : String)
deriving DecidableEq

/-- Numeric view of a `PVal`; `none` models the `TypeError` Python raises
when arithmetic is attempted on a string. -/
def PVal.asNum : PVal → Option ℚ
  | .num q => some q
  | .str _ => none

/-- A Python music-parameter dictionary. -/
abbrev PDict := List (String × PVal)

/-- `MOOD_AUDIO_FEATURES` from `src/backend/playlist_logic.py`. -/
def moodAudioFeatures : List (String × PDict) :=
  [("happy", [("energy", .num (7/10)), ("valence", .num (8/10)),
     ("danceability", .num (7/10)), ("tempo", .num 120), ("mode", .num 1),
     ("instrumentalness", .num (2/10))]),
   ("sad", [("energy", .num (4/10)), ("valence", .num (3/10)),
     ("danceability", .num (5/10)), ("tempo", .num 90), ("mode", .num 0),
     ("instrumentalness", .num (3/10))]),
   ("angry", [("energy", .num (8/10)), ("valence", .num (3/10)),
     ("danceability", .num (6/10)), ("tempo", .num 140), ("mode", .num 0),
     ("instrumentalness", .num (2/10))]),
   ("relaxed", [("energy", .num (3/10)), ("valence", .num (6/10)),
     ("danceability", .num (4/10)), ("tempo", .num 80),
     ("instrumentalness", .num (5/10)), ("acousticness", .num (6/10))]),
   ("energetic", [("energy", .num (9/10)), ("valence", .num (7/10)),
     ("danceability", .num (8/10)), ("tempo", .num 130),
     ("instrumentalness", .num (1/10))]),
   ("focused", [("energy", .num (5/10)), ("valence", .num (5/10)),
     ("danceability", .num (4/10)), ("tempo", .num 110),
     ("instrumentalness", .num (7/10))])]

/-- `MOOD_AUDIO_FEATURES["happy"]`. -/
def happyProfile : PDict := dictGetD moodAudioFeatures "happy" []

/-- The default parameters `adapt_to_user_goal` uses when no
`music_params` entry is available. -/
def defaultMusicParams : PDict :=
  [("valence", .num (1/2)), ("energy", .num (1/2)), ("tempo", .str "medium"),
   ("target_bpm", .num 100)]

/-- The `music_params` transformation of `EmotionDetector.adapt_to_user_goal`:
goals `calm` and `energize` rewrite energy / target BPM / tempo / valence;
every other goal (including `maintain` and `stay_same`) leaves the copied
parameters untouched.  `none` models an uncaught `KeyError`/`TypeError`
(missing or non-numeric `energy`). -/
def adaptToUserGoalParams (musicParams : Option PDict) (userGoal : String) : Option PDict :=
  let params := musicParams.getD defaultMusicParams
  if userGoal = "calm" then
    match (dictLookup params "energy").bind PVal.asNum,
          (dictGetD params "target_bpm" (.num 100)).asNum with
    | some e, some bpm =>
      some (dictSet (dictSet (dictSet (dictSet params
        "energy" (.num (max (1/10) (e - 3/10))))
        "target_bpm" (.num (max 60 (bpm - 30))))
        "tempo" (.str "low"))
        "valence" (.num (6/10)))
    | _, _ => none
  else if userGoal = "energize" then
    match (dictLookup params "energy").bind PVal.asNum,
          (dictGetD params "target_bpm" (.num 100)).asNum,
          (dictGetD params "valence" (.num (1/2))).asNum with
    | some e, some bpm, some v =>
      some (dictSet (dictSet (dictSet (dictSet params
        "energy" (.num (min 1 (e + 3/10))))
        "target_bpm" (.num (min 180 (bpm + 30))))
        "tempo" (.str "high"))
        "valence" (.num (max v (7/10))))
    | _, _, _ => none
  else
    some params

/-! ## Target-vector builder with goal deltas (C3)

`app.py` builds playlists through `generate_playlist_recommendations`,
which is part of this repository but not under `src/`; only its caller
(`src/backend/app.py` line 10) is.  Its goal-delta table and builder are
therefore modelled from the spec below.
-/

/-- Modelled from the spec: the `GoalAdjustment` table of the missing
`generate_playlist_recommendations` implementation.  The spec fixes only
the `increase_energy` entry ("delta energy +0.2, valence +0.1"); other
goal labels are not given numeric deltas and are omitted. -/
def goalAdjustment : List (String × List (String × ℚ)) :=
  [("increase_energy", [("energy", 2/10), ("valence", 1/10)])]

/-- Clamp following the spec: features clamp to `[0,1]`, tempo to `[40,200]`. -/
def clampFeature (feature : String) (v : ℚ) : ℚ :=
  if feature = "tempo" then max 40 (min 200 v) else max 0 (min 1 v)

/-- Modelled from the spec: apply `GoalAdjustment[goal]` per feature — an
additive delta on a mapped feature is clamped; a value for an unmapped
feature is assigned directly.  Unknown goal labels are silently ignored. -/
def applyGoalAdjustment (params : PDict) (goal : String) : PDict :=
  match dictLookup goalAdjustment goal with
  | none => params
  | some deltas =>
    deltas.foldl (fun acc fv =>
      match (dictLookup acc fv.1).bind PVal.asNum with
      | some v => dictSet acc fv.1 (.num (clampFeature fv.1 (v + fv.2)))
      | none => dictSet acc fv.1 (.num fv.2)) params

/-- Modelled from the spec: the target-vector builder starts from a deep
copy of `MoodProfile[emotion]` (unknown labels fall back to the
`relaxed` entry) and applies the goal adjustments. -/
def buildTargetVector (emotion goal : String) : PDict :=
  applyGoalAdjustment
    (dictGetD moodAudioFeatures emotion (dictGetD moodAudioFeatures "relaxed" [])) goal

/-! ## Resting-heart-rate calibration — `src/sensors/heart_rate_sensor.py`

`HeartRateSensor.calibrate_resting_hr` (lines 198–258) and
`HeartRateSensor._save_user_baselines` (lines 407–418).  The readings
gathered in `hr_history` during the blocking sampling window are passed in
as a list; `_save_user_baselines` rewrites the persisted file wholesale
from the in-memory mapping, so the mapping returned here is the persisted
one — on the failure path no save happens and it is returned unchanged.
-/

/-- A stored `HeartRateBaseline` entry. -/
structure Baseline where
  restingHr : ℤ
  calibratedAt : String
  samples : ℕ
deriving DecidableEq

/-- Python 3 `round(x)`: round half to even. -/
def pyRound (x : ℚ) : ℤ :=
  let f := ⌊x⌋
  let r := x - f
  if r < 1/2 then f
  else if 1/2 < r then f + 1
  else if f % 2 = 0 then f else f + 1

/-- Python 3 `round(x, 1)`. -/
def pyRound1 (x : ℚ) : ℚ := (pyRound (10 * x) : ℚ) / 10

/-- The result dictionary of `calibrate_resting_hr`. -/
structure CalibrationResult where
  userId : String
  restingHr : Option ℤ
  samples : ℕ
  success : Bool
deriving DecidableEq

/-- `HeartRateSensor.calibrate_resting_hr`: with at least one gathered
reading, store `round(round(average, 1))` for `userId` and save; with no
readings, report failure and leave the baselines untouched. -/
def calibrateRestingHr (baselines : List (String × Baseline)) (userId : String)
    (readings : List ℚ) (now : String) :
    CalibrationResult × List (String × Baseline) :=
  if 0 < readings.length then
    let avg := pyRound1 (readings.sum / readings.length)
    let baseline := pyRound avg
    (⟨userId, some baseline, readings.length, true⟩,
     dictSet baselines userId ⟨baseline, now, readings.length⟩)
  else
    (⟨userId, none, 0, false⟩, baselines)

/-! ## Seed preparation — `src/backend/playlist_logic.py`

The seed-construction part of `generate_playlist_based_on_mood`
(lines 76–125).  `random.sample` is modelled by an arbitrary `sample`
function constrained (in the theorem) to return exactly the requested
number of elements, which is all `random.sample` guarantees.
-/

/-- An entry of a recently-played track's `artists` list: an artist object
with an id, or a bare name string (skipped by the code). -/
inductive ArtistRef where
  | obj (id name : String)
  | nm (s : String)
deriving DecidableEq

/-- A recently-played track as consumed by seed preparation. -/
structure RecentTrack where
  id : Option String
  artists : List ArtistRef
deriving DecidableEq

/-- A seed set sent to `SpotifyClient.get_recommendations`. -/
structure SeedSet where
  genres : List String
  artists : List String
  tracks : List String
deriving DecidableEq

/-- The `recent_artists` dictionary: artist id → name over the first 10
recently played tracks, keeping only dict-shaped artists. -/
def recentArtistsDict (tracks : List RecentTrack) : List (String × String) :=
  tracks.foldl (fun acc t =>
    t.artists.foldl (fun acc2 a =>
      match a with
      | .obj i n => dictSet acc2 i n
      | .nm _ => acc2) acc) []

/-- Track and artist seeds extracted from the recently-played list
(up to 2 sampled track ids from the first 5 tracks, up to 2 sampled artist
ids from the first 10 tracks). -/
def seedsFromHistory (recentlyPlayed : Option (List RecentTrack))
    (sample : List String → ℕ → List String) : List String × List String :=
  match recentlyPlayed with
  | none => ([], [])
  | some l =>
    if l.isEmpty then ([], [])
    else
      let recentTrackIds := (l.take 5).filterMap (fun t => t.id)
      let st := if recentTrackIds.isEmpty then []
                else sample recentTrackIds (min 2 recentTrackIds.length)
      let ra := recentArtistsDict (l.take 10)
      let sa := if ra.isEmpty then []
                else sample (ra.map Prod.fst) (min 2 ra.length)
      (st, sa)

/-- Genre seeds: top genres filtered by the catalog's available-genre
vocabulary (an exception there is caught and leaves no genre seeds),
truncated to `5 - len(artists) - len(tracks)`. -/
def genreSeeds (topGenres : Option (List String))
    (availableGenres : Except String (List String))
    (numArtists numTracks : ℕ) : List String :=
  match topGenres with
  | none => []
  | some tg =>
    if tg.isEmpty then []
    else
      match availableGenres with
      | .error _ => []
      | .ok ag =>
        let valid := tg.filter (fun g => g ∈ ag)
        let remaining : ℤ := 5 - numArtists - numTracks
        if 0 < remaining ∧ ¬ valid.isEmpty then valid.take remaining.toNat else []

/-- The full seed preparation of `generate_playlist_based_on_mood`,
including the generic `["pop", "rock"]` fallback when no seed at all is
available. -/
def prepareSeeds (recentlyPlayed : Option (List RecentTrack))
    (topGenres : Option (List String))
    (availableGenres : Except String (List String))
    (sample : List String → ℕ → List String) : SeedSet :=
  let h := seedsFromHistory recentlyPlayed sample
  let sg := genreSeeds topGenres availableGenres h.2.length h.1.length
  if h.2.isEmpty ∧ sg.isEmpty ∧ h.1.isEmpty then ⟨["pop", "rock"], h.2, h.1⟩
  else ⟨sg, h.2, h.1⟩

/-! ## Track scoring — `src/backend/playlist_logic.py`

`score_tracks_for_mood` (lines 209–309).  The batch audio-feature fetch is
external I/O and is passed in as `fetchResult`; the code consults it only
when the `audio_features` argument is `None` or empty (Python falsiness),
and an exception there is caught and answered with every track scored 0.
-/

/-- A candidate track as consumed by `score_tracks_for_mood`: only its
optional `id` and `popularity` keys are read. -/
structure STrack where
  id : Option String
  popularity : Option ℚ
deriving DecidableEq

/-- A per-track audio-feature dictionary. -/
abbrev FDict := List (String × ℚ)

/-- The audio-features mapping `features_by_id` (track id → features). -/
abbrev AFMap := List (String × FDict)

/-- The `feature_weights` table of `score_tracks_for_mood`. -/
def featureWeights : FDict :=
  [("energy", 1), ("valence", 1), ("danceability", 7/10), ("instrumentalness", 1/2),
   ("acousticness", 3/10), ("tempo", 3/10), ("mode", 1/5), ("popularity", 1/2)]

/-- The per-feature scoring loop: weighted closeness summed over the mood
parameters present in both the track's features and the weight table,
together with the count of contributing features. -/
def scoreFold (features moodParams : FDict) : ℚ × ℕ :=
  moodParams.foldl (fun acc p =>
    match dictLookup features p.1, dictLookup featureWeights p.1 with
    | some av, some w =>
      let fs : ℚ := if p.1 = "tempo" then 1 - min 1 (|av - p.2| / 50)
                    else 1 - min 1 (|av - p.2|)
      (acc.1 + fs * w, acc.2 + 1)
    | _, _ => acc) (0, 0)

/-- One track's score: feature loop, popularity bonus when the track has a
popularity, then normalisation by `sum(weights) * count / len(weights)`. -/
def scoreTrack (t : STrack) (features : FDict) (moodParams : FDict) : ℚ :=
  let sc := scoreFold features moodParams
  let sc2 := match t.popularity with
    | some p => (sc.1 + p / 100 * dictGetD featureWeights "popularity" 0, sc.2 + 1)
    | none => sc
  if 0 < sc2.2 then
    sc2.1 / ((featureWeights.map Prod.snd).sum * sc2.2 / featureWeights.length)
  else sc2.1

/-- The mapping actually used: the provided `audio_features` when truthy
(non-`None`, non-empty), else the result of the batch fetch. -/
def effFeatures (audioFeatures : Option AFMap) (fetchResult : Except String AFMap) :
    Except String AFMap :=
  match audioFeatures with
  | some m => if m.isEmpty then fetchResult else .ok m
  | none => fetchResult

/-- `score_tracks_for_mood`: empty input gives `[]`; a failed fetch gives
every track with score 0; otherwise tracks without an id, or whose id is
absent from the features mapping, are skipped (`continue`). -/
def scoreTracksForMood (tracks : List STrack) (moodParams : FDict)
    (audioFeatures : Option AFMap) (fetchResult : Except String AFMap) : List (ℚ × STrack) :=
  if tracks.isEmpty then []
  else
    match effFeatures audioFeatures fetchResult with
    | .error _ => tracks.map (fun t => ((0 : ℚ), t))
    | .ok feats =>
      tracks.filterMap (fun t =>
        match t.id with
        | none => none
        | some i =>
          match dictLookup feats i with
          | none => none
          | some f => some (scoreTrack t f moodParams, t))

/-! ## Transition ordering — `src/backend/playlist_logic.py`

`add_transition_logic` (lines 340–388).  Python's `sorted`/`list.sort`
are stable; they are embedded as a stable insertion sort (later elements
are inserted after existing elements with an equal key).
-/

/-- Insert `a` into an ascending-sorted list, after any equal keys
(stable ascending insertion). -/
def insertAsc {α : Type} (key : α → ℚ) (a : α) : List α → List α
  | [] => [a]
  | b :: bs => if key a < key b then a :: b :: bs else b :: insertAsc key a bs

/-- Stable ascending sort by a rational key — Python `sorted(l, key=...)`. -/
def sortAsc {α : Type} (key : α → ℚ) (l : List α) : List α :=
  l.foldl (fun acc a => insertAsc key a acc) []

/-- Insert `a` into a descending-sorted list, after any equal keys
(stable descending insertion). -/
def insertDesc {α : Type} (key : α → ℚ) (a : α) : List α → List α
  | [] => [a]
  | b :: bs => if key b < key a then a :: b :: bs else b :: insertDesc key a bs

/-- Stable descending sort by a rational key —
Python `l.sort(key=..., reverse=True)`. -/
def sortDesc {α : Type} (key : α → ℚ) (l : List α) : List α :=
  l.foldl (fun acc a => insertDesc key a acc) []

/-- Summed absolute feature distance of a track to a parameter set, over
the parameters the track actually carries. -/
def sumAbsDistance (t : FDict) (params : FDict) : ℚ :=
  params.foldl (fun acc p =>
    match dictLookup t p.1 with
    | some v => acc + |v - p.2|
    | none => acc) 0

/-- The playlist position `add_transition_logic` assigns a track:
`target_distance / (start_distance + target_distance)`, `0.5` when both
distances are zero. -/
def transitionPosition (t : FDict) (moodParams targetMoodParams : FDict) : ℚ :=
  let sd := sumAbsDistance t moodParams
  let td := sumAbsDistance t targetMoodParams
  if 0 < sd + td then td / (sd + td) else 1/2

/-- `add_transition_logic`: lists of length ≤ 1 pass through; without
target parameters (or with an empty — falsy — target dict) tracks are
sorted by energy + valence; otherwise tracks are sorted ascending by
`transitionPosition`. -/
def addTransitionLogic (tracks : List FDict) (moodParams : FDict)
    (targetMoodParams : Option FDict) : List FDict :=
  if tracks.length ≤ 1 then tracks
  else
    match targetMoodParams with
    | none => sortAsc (fun t => dictGetD t "energy" (1/2) + dictGetD t "valence" (1/2)) tracks
    | some tp =>
      if tp.isEmpty then
        sortAsc (fun t => dictGetD t "energy" (1/2) + dictGetD t "valence" (1/2)) tracks
      else
        (sortAsc Prod.fst
          (tracks.map (fun t => (transitionPosition t moodParams tp, t)))).map Prod.snd

/-! ## Context post-filter — `src/backend/playlist_logic.py`

`adapt_playlist_to_context` (lines 468–564): per-context min/max feature
thresholds scaled by `intensity`, a skip of tracks carrying none of
energy/tempo/danceability, a restore valve when filtering removed too
much, and a final stable descending sort by the context's key.  Python's
`len(tracks) * 0.3` float product is embedded as the exact rational — the
minimum-size result below holds whichever way that comparison rounds,
since both branches are handled.
-/

/-- One entry of the `context_adaptations` table: `min_*` thresholds,
`max_*` thresholds and the `sort_by` key. -/
structure ContextAdaptation where
  mins : List (String × ℚ)
  maxs : List (String × ℚ)
  sortKey : FDict → ℚ

/-- The `context_adaptations` table. -/
def contextAdaptations (intensity : ℚ) : List (String × ContextAdaptation) :=
  [("workout",
    ⟨[("energy", 6/10 * intensity), ("tempo", 100)], [("instrumentalness", 4/10)],
     fun t => dictGetD t "energy" 0 * 2 + dictGetD t "tempo" 0 / 200⟩),
   ("study",
    ⟨[("instrumentalness", 3/10 * intensity)],
     [("energy", 6/10), ("speechiness", 3/10 * intensity)],
     fun t => dictGetD t "valence" 0⟩),
   ("relax",
    ⟨[("acousticness", 3/10 * intensity)],
     [("energy", 5/10 * intensity), ("tempo", 100)],
     fun t => -(dictGetD t "energy" 0)⟩),
   ("focus",
    ⟨[("instrumentalness", 3/10 * intensity)], [("speechiness", 3/10 * intensity)],
     fun t => dictGetD t "energy" 0⟩),
   ("party",
    ⟨[("danceability", 6/10 * intensity), ("energy", 6/10 * intensity)], [],
     fun t => dictGetD t "danceability" 0 + dictGetD t "popularity" 0 / 100⟩),
   ("sleep",
    ⟨[("instrumentalness", 5/10 * intensity)],
     [("energy", 4/10 * intensity), ("tempo", 80), ("loudness", -10)],
     fun t => -(dictGetD t "energy" 0)⟩)]

/-- The general adaptation used when the context is unknown. -/
def defaultAdaptation : ContextAdaptation :=
  ⟨[], [], fun t => dictGetD t "energy" 0 + dictGetD t "valence" 0⟩

/-- `any(k in track for k in ["energy", "tempo", "danceability"])`. -/
def hasAnyCoreFeature (t : FDict) : Bool :=
  dictHasKey t "energy" || dictHasKey t "tempo" || dictHasKey t "danceability"

/-- Whether a track survives the context filter: it carries at least one
core feature, no present feature is below a `min_*` threshold, and none is
above a `max_*` threshold (absent features are never checked). -/
def passesContextFilter (a : ContextAdaptation) (t : FDict) : Bool :=
  hasAnyCoreFeature t &&
  a.mins.all (fun p => match dictLookup t p.1 with
    | some v => decide (¬ v < p.2)
    | none => true) &&
  a.maxs.all (fun p => match dictLookup t p.1 with
    | some v => decide (¬ p.2 < v)
    | none => true)

/-- The restore valve: when fewer than `max(3, len(tracks) * 0.3)` tracks
survived, append up to `max(3, len(tracks) // 3)` of the dropped
originals. -/
def contextRestore (tracks filtered : List FDict) : List FDict :=
  if (filtered.length : ℚ) < max 3 ((tracks.length : ℚ) * (3/10)) then
    filtered ++ (tracks.filter (fun t => decide (t ∉ filtered))).take
      (max 3 (tracks.length / 3))
  else filtered

/-- `adapt_playlist_to_context`: filter by the (lower-cased) context's
thresholds, apply the restore valve, and sort descending by the context's
key (every table entry defines `sort_by`, so the sort always runs). -/
def adaptPlaylistToContext (tracks : List FDict) (context : String) (intensity : ℚ) :
    List FDict :=
  if tracks.isEmpty then []
  else
    sortDesc (dictGetD (contextAdaptations intensity) context.toLower defaultAdaptation).sortKey
      (contextRestore tracks
        (tracks.filter
          (passesContextFilter
            (dictGetD (contextAdaptations intensity) context.toLower defaultAdaptation))))

/-! ## Candidate-acquisition fallback (C4)

The three-tier candidate acquisition with its fixed fallback track list
belongs to `generate_playlist_recommendations`, which is part of this
repository but not under `src/` — `src/backend/app.py` (line 10) imports
it; the `generate_playlist_based_on_mood` present in
`src/backend/playlist_logic.py` is a single-query variant without the
fallback.  The missing acquisition is therefore modelled from the spec.
-/

/-- A catalog track as returned by candidate acquisition. -/
structure CatalogTrack where
  id : String
  name : String
  artist : String
deriving DecidableEq

/-- Modelled from the spec: the "small fixed list of well-known fallback
tracks" returned when all acquisition tiers come back empty; the spec's
end-to-end scenario fixes its size at 5. -/
def fallbackTracks : List CatalogTrack :=
  [⟨"fallback-1", "Bohemian Rhapsody", "Queen"⟩,
   ⟨"fallback-2", "Billie Jean", "Michael Jackson"⟩,
   ⟨"fallback-3", "Hey Jude", "The Beatles"⟩,
   ⟨"fallback-4", "Rolling in the Deep", "Adele"⟩,
   ⟨"fallback-5", "Shape of You", "Ed Sheeran"⟩]

/-- Modelled from the spec: merge results across tiers, deduplicating by
track id with the first occurrence winning. -/
def dedupById (tracks : List CatalogTrack) : List CatalogTrack :=
  tracks.foldl (fun acc t =>
    if acc.any (fun u => u.id = t.id) then acc else acc ++ [t]) []

/-- Modelled from the spec: the degrade-to-known-good acquisition policy of
`generate_playlist_recommendations` — merge the three tiers' results and,
if literally zero tracks were obtained, return the fixed fallback list
instead of an empty one (a total function: no failure is surfaced). -/
def acquireCandidatesWithFallback (tier1 tier2 tier3 : List CatalogTrack) :
    List CatalogTrack :=
  let merged := dedupById (tier1 ++ tier2 ++ tier3)
  if merged.isEmpty then fallbackTracks else merged

/-! ## Theorems -/

theorem dictLookup_dictSet_same {α : Type} (d : List (String × α)) (k : String) (v : α) :
    dictLookup (dictSet d k v) k = some v := by
  induction d with
  | nil => simp [dictSet, dictLookup]
  | cons hd tl ih =>
    obtain ⟨k', v'⟩ := hd
    by_cases h : k' = k
    · simp [dictSet, dictLookup, h]
    · simp [dictSet, dictLookup, h, ih]

theorem dictLookup_dictSet_other {α : Type} (d : List (String × α)) (k k' : String) (v : α)
    (hne : k' ≠ k) : dictLookup (dictSet d k v) k' = dictLookup d k' := by
  induction d with
  | nil =>
    have hne' : ¬ (k = k') := fun h => hne h.symm
    simp [dictSet, dictLookup, hne']
  | cons hd tl ih =>
    obtain ⟨k0, v0⟩ := hd
    by_cases h : k0 = k
    · subst h
      have hne' : ¬ (k0 = k') := fun h => hne h.symm
      simp [dictSet, dictLookup, hne']
    · by_cases h' : k0 = k'
      · simp [dictSet, dictLookup, h, h', hne]
      · simp [dictSet, dictLookup, h, h', ih]

/-- C1 counterexample: at confidence exactly `0.7` (which is "at least 0.7")
with heart rate 130 and top emotion `neutral`, the code fuses to
`excitement`, not to the classifier's top emotion. -/
theorem c1_confidence_boundary_counterexample :
    (7/10 : ℚ) ≥ 7/10 ∧
      adjustEmotionWithHeartRate "neutral" (7/10) 130 = "excitement" ∧
      ("excitement" : String) ≠ "neutral" := by
  refine ⟨le_refl _, ?_, by decide⟩
  simp [adjustEmotionWithHeartRate]

/-- C1 (amended): the facial signal is trusted only when confidence is
strictly above `0.7`; at confidence `≤ 0.7` with BPM above 110 a top emotion
in {neutral, sadness, contempt} is overridden to `excitement` (BPM > 120) or
`stress` (111–120).  Heart rate 130 with `neutral` at confidence 0.5 fuses to
`excitement`. -/
theorem c1_heart_rate_override (emotion : String) (confidence : ℚ) (heartRate : ℤ) :
    (confidence > 7/10 →
      adjustEmotionWithHeartRate emotion confidence heartRate = emotion) ∧
    (confidence ≤ 7/10 → heartRate > 110 →
      emotion ∈ ["neutral", "sadness", "contempt"] →
      adjustEmotionWithHeartRate emotion confidence heartRate =
        if heartRate > 120 then "excitement" else "stress") ∧
    adjustEmotionWithHeartRate "neutral" (1/2) 130 = "excitement" := by
  refine ⟨fun h => ?_, fun hc hhr hm => ?_, ?_⟩
  · simp [adjustEmotionWithHeartRate, h]
  · have : ¬ (confidence > 7/10) := not_lt.mpr hc
    simp [adjustEmotionWithHeartRate, this, hhr, hm]
  · norm_num [adjustEmotionWithHeartRate]

/-- Witness for `c1_heart_rate_override` at confidence 0.5, heart rate 130,
emotion `neutral`. -/
theorem c1_heart_rate_override_witness :
    (1/2 : ℚ) ≤ 7/10 ∧ (130 : ℤ) > 110 ∧
      adjustEmotionWithHeartRate "neutral" (1/2) 130 = "excitement" := by
  have h := (c1_heart_rate_override "neutral" (1/2) 130).2.1
    (by norm_num) (by norm_num) (by simp)
  refine ⟨by norm_num, by norm_num, ?_⟩
  simpa using h

/-- C5 counterexample: at BPM exactly 70 — inside the claimed `70–90 →
neutral` band — the heart-rate-only path yields `relaxed`, because every
band comparison in the code is strict. -/
theorem c5_band_boundary_counterexample :
    combineSensorDataPrimary (.error "no face") 70 = "relaxed" ∧
      ("relaxed" : String) ≠ "neutral" := by
  refine ⟨?_, by decide⟩
  simp [combineSensorDataPrimary, getEmotionFromHeartRate]

/-- C5 (amended): when the classifier fails, the fused emotion comes from
four strict BPM bands: `>110 → excitement`, `91–110 → stress`,
`71–90 → neutral`, `≤70 → relaxed`. -/
theorem c5_heart_rate_only_bands (msg : String) (heartRate : ℤ) :
    (heartRate > 110 → combineSensorDataPrimary (.error msg) heartRate = "excitement") ∧
    (90 < heartRate → heartRate ≤ 110 →
      combineSensorDataPrimary (.error msg) heartRate = "stress") ∧
    (70 < heartRate → heartRate ≤ 90 →
      combineSensorDataPrimary (.error msg) heartRate = "neutral") ∧
    (heartRate ≤ 70 → combineSensorDataPrimary (.error msg) heartRate = "relaxed") := by
  refine ⟨fun h => ?_, fun h1 h2 => ?_, fun h1 h2 => ?_, fun h => ?_⟩
  · simp [combineSensorDataPrimary, getEmotionFromHeartRate, h]
  · have hn110 : ¬ (110 < heartRate) := by omega
    simp [combineSensorDataPrimary, getEmotionFromHeartRate, h1, hn110]
  · have hn110 : ¬ (110 < heartRate) := by omega
    have hn90 : ¬ (90 < heartRate) := by omega
    simp [combineSensorDataPrimary, getEmotionFromHeartRate, h1, hn110, hn90]
  · have hn110 : ¬ (110 < heartRate) := by omega
    have hn90 : ¬ (90 < heartRate) := by omega
    have hn70 : ¬ (70 < heartRate) := by omega
    simp [combineSensorDataPrimary, getEmotionFromHeartRate, hn110, hn90, hn70]

/-- Witness for `c5_heart_rate_only_bands` at BPM 95 (stress band). -/
theorem c5_heart_rate_only_bands_witness :
    (90 : ℤ) < 95 ∧ (95 : ℤ) ≤ 110 ∧
      combineSensorDataPrimary (.error "no face") 95 = "stress" := by
  have h := (c5_heart_rate_only_bands "no face" 95).2.1 (by norm_num) (by norm_num)
  exact ⟨by norm_num, by norm_num, h⟩

/-- C2: goals `stay_same` and `maintain` are identities on any parameter
dictionary, and for the `happy` profile the result is exactly
`MOOD_AUDIO_FEATURES["happy"]` (energy 0.7, valence 0.8,
instrumentalness 0.2). -/
theorem c2_stay_same_identity (params : PDict) (goal : String)
    (h : goal = "stay_same" ∨ goal = "maintain") :
    adaptToUserGoalParams (some params) goal = some params ∧
    adaptToUserGoalParams (some happyProfile) "stay_same" = some happyProfile ∧
    dictLookup happyProfile "energy" = some (.num (7/10)) ∧
    dictLookup happyProfile "valence" = some (.num (8/10)) ∧
    dictLookup happyProfile "instrumentalness" = some (.num (2/10)) := by
  refine ⟨?_, by simp [adaptToUserGoalParams],
    by simp [happyProfile, moodAudioFeatures, dictGetD, dictLookup],
    by simp [happyProfile, moodAudioFeatures, dictGetD, dictLookup],
    by simp [happyProfile, moodAudioFeatures, dictGetD, dictLookup]⟩
  rcases h with h | h <;> subst h <;> simp [adaptToUserGoalParams]

/-- Witness for `c2_stay_same_identity`: the happy profile with goal
`stay_same`. -/
theorem c2_stay_same_identity_witness :
    adaptToUserGoalParams (some happyProfile) "stay_same" = some happyProfile :=
  (c2_stay_same_identity happyProfile "stay_same" (Or.inl rfl)).1

/-- C3: for emotion `sad` (base energy 0.4, valence 0.3) and goal
`increase_energy` (deltas +0.2 / +0.1) the target vector has energy 0.6
and valence 0.4. -/
theorem c3_sad_increase_energy :
    dictLookup (buildTargetVector "sad" "increase_energy") "energy" = some (.num (6/10)) ∧
    dictLookup (buildTargetVector "sad" "increase_energy") "valence" = some (.num (4/10)) := by
  constructor <;>
  · simp [buildTargetVector, applyGoalAdjustment, goalAdjustment, moodAudioFeatures,
      dictGetD, dictLookup, dictSet, clampFeature, PVal.asNum]
    rw [min_eq_right (by norm_num), max_eq_right (by norm_num)]
    norm_num

/-- C10: calibration with no valid samples reports failure and leaves the
persisted baselines mapping completely unchanged; calibration with samples
succeeds, creates or replaces exactly the entry for the calibrated user,
and leaves every other user's entry unchanged. -/
theorem c10_calibration_frame (baselines : List (String × Baseline)) (userId now : String)
    (readings : List ℚ) (hne : readings ≠ []) :
    ((calibrateRestingHr baselines userId [] now).1.success = false ∧
      (calibrateRestingHr baselines userId [] now).2 = baselines) ∧
    ((calibrateRestingHr baselines userId readings now).1.success = true ∧
      (∃ e, dictLookup (calibrateRestingHr baselines userId readings now).2 userId = some e) ∧
      (∀ v, v ≠ userId →
        dictLookup (calibrateRestingHr baselines userId readings now).2 v =
          dictLookup baselines v)) := by
  have hl : 0 < readings.length := List.length_pos.mpr hne
  refine ⟨⟨by simp [calibrateRestingHr], by simp [calibrateRestingHr]⟩, ?_, ?_, ?_⟩
  · simp [calibrateRestingHr, hl]
  · refine ⟨⟨pyRound (pyRound1 (readings.sum / readings.length)), now, readings.length⟩, ?_⟩
    simp [calibrateRestingHr, hl, dictLookup_dictSet_same]
  · intro v hv
    simp [calibrateRestingHr, hl, dictLookup_dictSet_other _ _ _ _ hv]

/-- Witness for `c10_calibration_frame`: calibrating `alice` with two
readings succeeds and leaves `bob`'s baseline untouched. -/
theorem c10_calibration_frame_witness :
    ([(72 : ℚ), 74] : List ℚ) ≠ [] ∧
      (calibrateRestingHr [("bob", ⟨65, "t0", 10⟩)] "alice" [72, 74] "t1").1.success = true ∧
      dictLookup (calibrateRestingHr [("bob", ⟨65, "t0", 10⟩)] "alice" [72, 74] "t1").2 "bob" =
        dictLookup [("bob", (⟨65, "t0", 10⟩ : Baseline))] "bob" := by
  have h := c10_calibration_frame [("bob", ⟨65, "t0", 10⟩)] "alice" "t1" [72, 74] (by simp)
  exact ⟨by simp, h.2.1, h.2.2.2 "bob" (by simp)⟩

theorem seedsFromHistory_tracks_le (recentlyPlayed : Option (List RecentTrack))
    (sample : List String → ℕ → List String)
    (hsample : ∀ l k, k ≤ l.length → (sample l k).length = k) :
    (seedsFromHistory recentlyPlayed sample).1.length ≤ 2 := by
  match recentlyPlayed with
  | none => simp [seedsFromHistory]
  | some l =>
    by_cases he : l.isEmpty
    · simp [seedsFromHistory, he]
    · simp only [seedsFromHistory, he, if_false, Bool.false_eq_true]
      split
      · simp
      · rw [hsample _ _ (min_le_right _ _)]
        exact min_le_left _ _

theorem seedsFromHistory_artists_le (recentlyPlayed : Option (List RecentTrack))
    (sample : List String → ℕ → List String)
    (hsample : ∀ l k, k ≤ l.length → (sample l k).length = k) :
    (seedsFromHistory recentlyPlayed sample).2.length ≤ 2 := by
  match recentlyPlayed with
  | none => simp [seedsFromHistory]
  | some l =>
    by_cases he : l.isEmpty
    · simp [seedsFromHistory, he]
    · simp only [seedsFromHistory, he, if_false, Bool.false_eq_true]
      split
      · simp
      · rw [hsample _ _ (by simp [min_le_right])]
        exact min_le_left _ _

theorem genreSeeds_le (topGenres : Option (List String))
    (availableGenres : Except String (List String)) (a t : ℕ) :
    (genreSeeds topGenres availableGenres a t).length + a + t ≤ 5 ∨
      (genreSeeds topGenres availableGenres a t) = [] := by
  match topGenres with
  | none => right; simp [genreSeeds]
  | some tg =>
    by_cases he : tg.isEmpty
    · right; simp [genreSeeds, he]
    · match availableGenres with
      | .error e => right; simp [genreSeeds, he]
      | .ok ag =>
        simp only [genreSeeds, he, if_false, Bool.false_eq_true]
        split
        · next hcond =>
          left
          have hlen : ((tg.filter (fun g => g ∈ ag)).take (5 - (a : ℤ) - t).toNat).length ≤
              (5 - (a : ℤ) - t).toNat := by
            simp only [List.length_take]
            exact min_le_left (5 - (a : ℤ) - t).toNat (tg.filter (fun g => g ∈ ag)).length
          have hpos : (0 : ℤ) < 5 - (a : ℤ) - t := hcond.1
          omega
        · right; rfl

/-- C6: every seed set sent to a catalog recommendation query has at most
5 seeds in total and at least one seed across the three kinds; when no
seed is derivable from user history (no recently played tracks, no valid
top genres), the fixed generic genre set `["pop", "rock"]` is used. -/
theorem c6_seed_count_invariant
    (recentlyPlayed : Option (List RecentTrack)) (topGenres : Option (List String))
    (availableGenres : Except String (List String))
    (sample : List String → ℕ → List String)
    (hsample : ∀ l k, k ≤ l.length → (sample l k).length = k) :
    ((prepareSeeds recentlyPlayed topGenres availableGenres sample).genres.length +
       (prepareSeeds recentlyPlayed topGenres availableGenres sample).artists.length +
       (prepareSeeds recentlyPlayed topGenres availableGenres sample).tracks.length ≤ 5 ∧
     0 < (prepareSeeds recentlyPlayed topGenres availableGenres sample).genres.length +
       (prepareSeeds recentlyPlayed topGenres availableGenres sample).artists.length +
       (prepareSeeds recentlyPlayed topGenres availableGenres sample).tracks.length) ∧
    prepareSeeds none none availableGenres sample = ⟨["pop", "rock"], [], []⟩ ∧
    (∀ tg ag, (∀ g ∈ tg, g ∉ ag) →
      prepareSeeds none (some tg) (Except.ok ag) sample = ⟨["pop", "rock"], [], []⟩) := by
  refine ⟨?_, ?_, ?_⟩
  · have ht := seedsFromHistory_tracks_le recentlyPlayed sample hsample
    have ha := seedsFromHistory_artists_le recentlyPlayed sample hsample
    have hg := genreSeeds_le topGenres availableGenres
      (seedsFromHistory recentlyPlayed sample).2.length
      (seedsFromHistory recentlyPlayed sample).1.length
    unfold prepareSeeds
    by_cases hc : (seedsFromHistory recentlyPlayed sample).2.isEmpty ∧
        (genreSeeds topGenres availableGenres
          (seedsFromHistory recentlyPlayed sample).2.length
          (seedsFromHistory recentlyPlayed sample).1.length).isEmpty ∧
        (seedsFromHistory recentlyPlayed sample).1.isEmpty
    · rw [if_pos hc]
      obtain ⟨h2, _, h1⟩ := hc
      rw [List.isEmpty_iff] at h2 h1
      simp [h2, h1]
    · rw [if_neg hc]
      dsimp only
      rw [not_and_or, not_and_or] at hc
      constructor
      · rcases hg with hg | hg
        · omega
        · rw [hg]
          simp only [List.length_nil]
          omega
      · rcases hc with hc | hc | hc
        · have : (seedsFromHistory recentlyPlayed sample).2 ≠ [] := by
            simpa [List.isEmpty_iff] using hc
          have := List.length_pos.mpr this
          omega
        · have : (genreSeeds topGenres availableGenres
              (seedsFromHistory recentlyPlayed sample).2.length
              (seedsFromHistory recentlyPlayed sample).1.length) ≠ [] := by
            simpa [List.isEmpty_iff] using hc
          have := List.length_pos.mpr this
          omega
        · have : (seedsFromHistory recentlyPlayed sample).1 ≠ [] := by
            simpa [List.isEmpty_iff] using hc
          have := List.length_pos.mpr this
          omega
  · simp [prepareSeeds, seedsFromHistory, genreSeeds]
  · intro tg ag hnone
    have hfil : tg.filter (fun g => decide (g ∈ ag)) = [] := by
      rw [List.filter_eq_nil_iff]
      intro a ha
      simpa using hnone a ha
    by_cases he : tg.isEmpty
    · simp [prepareSeeds, seedsFromHistory, genreSeeds, he]
    · simp [prepareSeeds, seedsFromHistory, genreSeeds, he, hfil]

/-- Witness for `c6_seed_count_invariant`: taking the first elements as the
sample, with no history and top genre `jazz` absent from the catalog
vocabulary, the generic seed set is used and the invariant holds. -/
theorem c6_seed_count_invariant_witness :
    prepareSeeds none (some ["jazz"]) (Except.ok ["pop", "rock"])
        (fun l k => l.take k) = ⟨["pop", "rock"], [], []⟩ ∧
      (prepareSeeds none (some ["jazz"]) (Except.ok ["pop", "rock"])
        (fun l k => l.take k)).genres.length +
      (prepareSeeds none (some ["jazz"]) (Except.ok ["pop", "rock"])
        (fun l k => l.take k)).artists.length +
      (prepareSeeds none (some ["jazz"]) (Except.ok ["pop", "rock"])
        (fun l k => l.take k)).tracks.length ≤ 5 := by
  have hs : ∀ (l : List String) (k : ℕ), k ≤ l.length → (l.take k).length = k := by
    intro l k hk
    rw [List.length_take]
    omega
  have h := c6_seed_count_invariant none (some ["jazz"]) (Except.ok ["pop", "rock"])
    (fun l k => l.take k) hs
  refine ⟨h.2.2 ["jazz"] ["pop", "rock"] ?_, h.1.1⟩
  intro g hg
  simp at hg
  subst hg
  simp

/-- C7 counterexample: when the audio-feature fetch fails, a track with no
feature data is not excluded — it is returned with score 0. -/
theorem c7_fetch_failure_counterexample :
    scoreTracksForMood [⟨some "x", some 50⟩] [("energy", 1/2)] none (.error "boom")
      = [(0, ⟨some "x", some 50⟩)] ∧
    (⟨some "x", some 50⟩ : STrack) ∈
      (scoreTracksForMood [⟨some "x", some 50⟩] [("energy", 1/2)] none
        (.error "boom")).map Prod.snd := by
  constructor
  · simp [scoreTracksForMood, effFeatures]
  · simp [scoreTracksForMood, effFeatures]

/-- C7 (amended): whenever an audio-features mapping is actually obtained
(provided non-empty, or fetched successfully), every scored track's id is
present in it — tracks with missing features are excluded, not scored 0;
but when the fetch itself fails, all tracks are returned with score 0. -/
theorem c7_missing_features_excluded (tracks : List STrack) (moodParams : FDict)
    (audioFeatures : Option AFMap) (fetchResult : Except String AFMap) (m : AFMap) (e : String)
    (hok : effFeatures audioFeatures fetchResult = .ok m) :
    (∀ p ∈ scoreTracksForMood tracks moodParams audioFeatures fetchResult,
      ∃ i, p.2.id = some i ∧ (dictLookup m i).isSome) ∧
    (tracks ≠ [] →
      scoreTracksForMood tracks moodParams none (.error e) = tracks.map (fun t => ((0 : ℚ), t))) := by
  constructor
  · intro p hp
    unfold scoreTracksForMood at hp
    by_cases hemp : tracks.isEmpty
    · simp [hemp] at hp
    · rw [if_neg hemp, hok] at hp
      simp only [List.mem_filterMap] at hp
      obtain ⟨t, _, hft⟩ := hp
      cases hid : t.id with
      | none => rw [hid] at hft; simp at hft
      | some i =>
        rw [hid] at hft
        dsimp only at hft
        cases hfl : dictLookup m i with
        | none => rw [hfl] at hft; simp at hft
        | some f =>
          rw [hfl] at hft
          simp only [Option.some.injEq] at hft
          refine ⟨i, ?_, ?_⟩
          · rw [← hft]
            exact hid
          · simp [hfl]
  · intro hne
    cases tracks with
    | nil => exact absurd rfl hne
    | cons a as => simp [scoreTracksForMood, effFeatures]

/-- Witness for `c7_missing_features_excluded`: a provided mapping holding
only id `a` scores the id-`a` track and drops the id-less track; with a
failed fetch the single track comes back scored 0. -/
theorem c7_missing_features_excluded_witness :
    effFeatures (some [("a", [("energy", 1/2)])]) (.ok [("a", [("energy", 1/2)])])
        = .ok [("a", [("energy", 1/2)])] ∧
      ([⟨some "a", none⟩] : List STrack) ≠ [] ∧
      scoreTracksForMood [⟨some "a", none⟩] [("energy", 1)] none (.error "x")
        = [(0, ⟨some "a", none⟩)] := by
  have h := c7_missing_features_excluded [⟨some "a", none⟩] [("energy", 1)]
    (some [("a", [("energy", 1/2)])]) (.ok [("a", [("energy", 1/2)])])
    [("a", [("energy", 1/2)])] "x" (by simp [effFeatures])
  exact ⟨by simp [effFeatures], by simp, h.2 (by simp)⟩

theorem length_insertAsc {α : Type} (key : α → ℚ) (a : α) (l : List α) :
    (insertAsc key a l).length = l.length + 1 := by
  induction l with
  | nil => rfl
  | cons b bs ih =>
    by_cases h : key a < key b
    · simp [insertAsc, h]
    · simp [insertAsc, h, ih]

theorem length_insertDesc {α : Type} (key : α → ℚ) (a : α) (l : List α) :
    (insertDesc key a l).length = l.length + 1 := by
  induction l with
  | nil => rfl
  | cons b bs ih =>
    by_cases h : key b < key a
    · simp [insertDesc, h]
    · simp [insertDesc, h, ih]

theorem length_sortDesc {α : Type} (key : α → ℚ) (l : List α) :
    (sortDesc key l).length = l.length := by
  suffices h : ∀ acc : List α,
      (l.foldl (fun acc a => insertDesc key a acc) acc).length = acc.length + l.length by
    simpa using h []
  induction l with
  | nil => simp
  | cons b bs ih =>
    intro acc
    simp only [List.foldl_cons, ih, length_insertDesc, List.length_cons]
    omega

/-- C8: the code computes `target_distance / (start + target)` and sorts
ascending, so a track identical to the start target gets position 1 and is
sorted LAST, while a track identical to the end target gets position 0 and
is sorted FIRST — the opposite of the claimed (and commented,
`(0=start, 1=end)`) placement. -/
theorem c8_start_track_sorts_last :
    transitionPosition [("energy", 1/5), ("valence", 3/10)]
        [("energy", 1/5), ("valence", 3/10)] [("energy", 9/10), ("valence", 4/5)] = 1 ∧
      transitionPosition [("energy", 9/10), ("valence", 4/5)]
        [("energy", 1/5), ("valence", 3/10)] [("energy", 9/10), ("valence", 4/5)] = 0 ∧
      addTransitionLogic
          [[("energy", 1/5), ("valence", 3/10)], [("energy", 9/10), ("valence", 4/5)]]
          [("energy", 1/5), ("valence", 3/10)]
          (some [("energy", 9/10), ("valence", 4/5)])
        = [[("energy", 9/10), ("valence", 4/5)], [("energy", 1/5), ("valence", 3/10)]] := by
  have habs1 : |(1 : ℚ)/5 - 9/10| = 7/10 := by
    rw [abs_of_nonpos (by norm_num)]
    norm_num
  have habs2 : |(3 : ℚ)/10 - 4/5| = 1/2 := by
    rw [abs_of_nonpos (by norm_num)]
    norm_num
  have habs3 : |(9 : ℚ)/10 - 1/5| = 7/10 := by
    rw [abs_of_nonneg (by norm_num)]
    norm_num
  have habs4 : |(4 : ℚ)/5 - 3/10| = 1/2 := by
    rw [abs_of_nonneg (by norm_num)]
    norm_num
  have hA : transitionPosition [("energy", 1/5), ("valence", 3/10)]
      [("energy", 1/5), ("valence", 3/10)] [("energy", 9/10), ("valence", 4/5)] = 1 := by
    simp [transitionPosition, sumAbsDistance, dictLookup, habs1, habs2]
    norm_num [abs_of_nonneg]
  have hB : transitionPosition [("energy", 9/10), ("valence", 4/5)]
      [("energy", 1/5), ("valence", 3/10)] [("energy", 9/10), ("valence", 4/5)] = 0 := by
    simp [transitionPosition, sumAbsDistance, dictLookup, habs3, habs4]
    norm_num [abs_of_nonneg]
  refine ⟨hA, hB, ?_⟩
  simp only [addTransitionLogic]
  norm_num
  rw [hA, hB]
  simp [sortAsc, insertAsc]

theorem length_filter_not {α : Type} (p : α → Bool) (l : List α) :
    (l.filter (fun a => !(p a))).length = l.length - (l.filter p).length := by
  induction l with
  | nil => rfl
  | cons a as ih =>
    have hle := List.length_filter_le p as
    cases hp : p a with
    | true =>
      simp only [List.filter_cons, hp, Bool.not_true, List.length_cons, ih,
        if_true, if_false, Bool.false_eq_true, List.length_nil]
      omega
    | false =>
      simp only [List.filter_cons, hp, Bool.not_false, List.length_cons, ih,
        if_true, if_false, Bool.false_eq_true, List.length_nil]
      omega

theorem contextRestore_min_length (tracks : List FDict) (p : FDict → Bool)
    (hne : tracks ≠ []) :
    min 3 tracks.length ≤ (contextRestore tracks (tracks.filter p)).length := by
  have hrem : tracks.filter (fun t => decide (t ∉ tracks.filter p)) =
      tracks.filter (fun t => !(p t)) := by
    apply List.filter_congr
    intro a ha
    cases hb : p a with
    | true =>
      have hmem : a ∈ tracks.filter p := List.mem_filter.mpr ⟨ha, hb⟩
      simp [hmem]
    | false =>
      have hmem : a ∉ tracks.filter p := by
        intro hmem
        have h2 := (List.mem_filter.mp hmem).2
        rw [hb] at h2
        exact Bool.false_ne_true h2
      simp [hmem]
  have hple : (tracks.filter p).length ≤ tracks.length := List.length_filter_le _ _
  have hn : 0 < tracks.length := List.length_pos.mpr hne
  unfold contextRestore
  by_cases hc : ((tracks.filter p).length : ℚ) < max 3 ((tracks.length : ℚ) * (3/10))
  · rw [if_pos hc, List.length_append, hrem, List.length_take, length_filter_not]
    omega
  · rw [if_neg hc]
    push_neg at hc
    have h3 : (3 : ℚ) ≤ ((tracks.filter p).length : ℚ) :=
      le_trans (le_max_left _ _) hc
    have h3n : 3 ≤ (tracks.filter p).length := by exact_mod_cast h3
    omega

/-- C9: for every non-empty track list and every context label, the
context post-filter returns at least `min(3, len(input))` tracks — the
restore valve prevents filtering from zeroing out a playlist. -/
theorem c9_context_filter_min_size (tracks : List FDict) (context : String)
    (intensity : ℚ) (hne : tracks ≠ []) :
    min 3 tracks.length ≤ (adaptPlaylistToContext tracks context intensity).length := by
  have hemp : ¬ (tracks.isEmpty = true) := by
    cases tracks with
    | nil => exact absurd rfl hne
    | cons a as => simp
  unfold adaptPlaylistToContext
  rw [if_neg hemp, length_sortDesc]
  exact contextRestore_min_length tracks _ hne

/-- Witness for `c9_context_filter_min_size`: a single low-energy track
under the `workout` context — it fails the thresholds, is restored by the
valve, and the output still has `min(3, 1) = 1` track. -/
theorem c9_context_filter_min_size_witness :
    ([[("energy", (1 : ℚ)/10)]] : List FDict) ≠ [] ∧
      min 3 ([[("energy", (1 : ℚ)/10)]] : List FDict).length ≤
        (adaptPlaylistToContext [[("energy", 1/10)]] "workout" 1).length := by
  refine ⟨by simp, ?_⟩
  exact c9_context_filter_min_size [[("energy", 1/10)]] "workout" 1 (by simp)

/-- C4: when all three acquisition tiers return zero tracks the output is
the fixed 5-track fallback list verbatim, and for any tiers whatsoever the
output is never empty. -/
theorem c4_fallback_on_empty_tiers (tier1 tier2 tier3 : List CatalogTrack)
    (h1 : tier1 = []) (h2 : tier2 = []) (h3 : tier3 = []) :
    acquireCandidatesWithFallback tier1 tier2 tier3 = fallbackTracks ∧
      (acquireCandidatesWithFallback tier1 tier2 tier3).length = 5 ∧
      ∀ t1 t2 t3 : List CatalogTrack, acquireCandidatesWithFallback t1 t2 t3 ≠ [] := by
  subst h1 h2 h3
  refine ⟨by simp [acquireCandidatesWithFallback, dedupById, fallbackTracks],
    by simp [acquireCandidatesWithFallback, dedupById, fallbackTracks], ?_⟩
  intro t1 t2 t3
  unfold acquireCandidatesWithFallback
  by_cases hm : (dedupById (t1 ++ t2 ++ t3)).isEmpty
  · rw [if_pos hm]
    simp [fallbackTracks]
  · rw [if_neg hm]
    intro hnil
    rw [hnil] at hm
    exact hm rfl

/-- Witness for `c4_fallback_on_empty_tiers` at three empty tiers. -/
theorem c4_fallback_on_empty_tiers_witness :
    acquireCandidatesWithFallback [] [] [] = fallbackTracks ∧
      (acquireCandidatesWithFallback [] [] []).length = 5 :=
  ⟨(c4_fallback_on_empty_tiers [] [] [] rfl rfl rfl).1,
   (c4_fallback_on_empty_tiers [] [] [] rfl rfl rfl).2.1⟩
